import Mathlib

/-!
Shallow embedding of the EMS (energy management system) repository.

Power values (kW) and energies (kWh) are modelled as rationals; the Go source
uses float64, and none of the verified properties depend on rounding.
Go methods mutate their receiver through a pointer and return the remaining
uncovered discharge; here each operation returns the new record together with
the returned value.  The Go `error` second return of the ESS adjustment
methods is always `nil` in the source, so those operations return only the
remainder; the EMS-level operations, which do construct errors, return an
`Option GoError`.

The repository contains two variants of the ESS asset file.  The second
variant (the one with json tags, used together with the config loader and the
`Serve` loop of the EMS file) is embedded under the source names
(`ESS.AdjustDischarge`, ...).  The first, older variant differs only in
`DecreaseDischarge` (it writes `p - discharge` instead of `p + discharge`)
and in `BalanceEnergy`; its decrease path is embedded under the `ESSv1`
namespace where a claim refers to it.
-/

namespace EMSDev

/-- PV plant state: inverter output `P`, pyranometer production estimate
`Pprod`, nameplate `Peak`, and the EMS-commanded setpoint `SetPointP`. -/
structure PV where
  P : ℚ
  Pprod : ℚ
  Peak : ℚ
  SetPointP : ℚ
deriving DecidableEq, Repr

/-- ESS battery state: output `P` (negative charges, positive discharges),
power limits `PmaxCh ≤ 0 ≤ PmaxDisch`, stored energy `E`, `Capacity`, and the
EMS-commanded setpoint `SetPointP`. -/
structure ESS where
  P : ℚ
  PmaxCh : ℚ
  PmaxDisch : ℚ
  E : ℚ
  Capacity : ℚ
  SetPointP : ℚ
deriving DecidableEq, Repr

/-- Point-of-connection meter state. -/
structure POC where
  P : ℚ
deriving DecidableEq, Repr

/-- Go `POC.GetMeterMeasure` returns the measured POC power. -/
def POC.GetMeterMeasure (poc : POC) : ℚ := poc.P

/-- Go `PV.SetSetpoint` writes the setpoint field. -/
def PV.SetSetpoint (pv : PV) (setpointPPv : ℚ) : PV :=
  { pv with SetPointP := setpointPPv }

/-- Go `PV.AvailableProd` returns `Pprod - P`. -/
def PV.AvailableProd (pv : PV) : ℚ := pv.Pprod - pv.P

/-- Go `PV.IncreaseDischarge`: cover `discharge` from live production headroom,
returning the uncovered remainder. -/
def PV.IncreaseDischarge (pv : PV) (discharge : ℚ) : PV × ℚ :=
  if pv.P + discharge < pv.Pprod then
    (pv.SetSetpoint (pv.P + discharge), 0)
  else
    (pv.SetSetpoint pv.Pprod, discharge - (pv.Pprod - pv.P))

/-- Go `PV.DecreaseDischarge`: lower production toward `P + discharge`, never
below 0, returning the uncovered remainder (a negative sentinel when already
past 0). -/
def PV.DecreaseDischarge (pv : PV) (discharge : ℚ) : PV × ℚ :=
  if pv.P + discharge < 0 then
    (pv.SetSetpoint 0, -pv.P)
  else if pv.P + discharge > 0 then
    (pv.SetSetpoint (pv.P + discharge), 0)
  else
    (pv.SetSetpoint 0, discharge - pv.P)

/-- Go `PV.AdjustDischarge` dispatches on the sign of `discharge`. -/
def PV.AdjustDischarge (pv : PV) (discharge : ℚ) : PV × ℚ :=
  if discharge < 0 then pv.DecreaseDischarge discharge
  else pv.IncreaseDischarge discharge

/-- Go `ESS.SetSetpoint` writes the setpoint field. -/
def ESS.SetSetpoint (ess : ESS) (setpointPEss : ℚ) : ESS :=
  { ess with SetPointP := setpointPEss }

/-- Go `ESS.IncreaseDischarge` (second variant; the first variant is
textually identical): empty-battery sentinel, then cover from discharge
headroom up to `PmaxDisch`. -/
def ESS.IncreaseDischarge (ess : ESS) (discharge : ℚ) : ESS × ℚ :=
  if ess.P + discharge > 0 ∧ ess.E ≤ 0 then
    (ess.SetSetpoint 0, -ess.P)
  else if ess.P + discharge < ess.PmaxDisch then
    (ess.SetSetpoint (ess.P + discharge), 0)
  else
    (ess.SetSetpoint ess.PmaxDisch, discharge - (ess.PmaxDisch - ess.P))

/-- Go `ESS.DecreaseDischarge` (second variant): full-battery sentinel, then
move toward `P + discharge` down to `PmaxCh`. -/
def ESS.DecreaseDischarge (ess : ESS) (discharge : ℚ) : ESS × ℚ :=
  if ess.P + discharge < 0 ∧ ess.E ≥ ess.Capacity then
    (ess.SetSetpoint 0, -ess.P)
  else if ess.P + discharge > ess.PmaxCh then
    (ess.SetSetpoint (ess.P + discharge), 0)
  else
    (ess.SetSetpoint ess.PmaxCh, discharge - (ess.PmaxCh - ess.P))

/-- Go `ESS.AdjustDischarge` dispatches on the sign of `discharge`. -/
def ESS.AdjustDischarge (ess : ESS) (discharge : ℚ) : ESS × ℚ :=
  if discharge < 0 then ess.DecreaseDischarge discharge
  else ess.IncreaseDischarge discharge

/-- Go `ESS.BalanceEnergy` (second variant): heuristic nudge computed from
`poc / pocMax` and `E / Capacity`, returning the applied delta. -/
def ESS.BalanceEnergy (ess : ESS) (poc pocMax : ℚ) : ESS × ℚ :=
  let pocPercentage := poc / pocMax
  let ePercentage := ess.E / ess.Capacity
  if pocPercentage < 3/10 ∧ ePercentage < 7/10 ∧ ess.P > ess.PmaxCh then
    let delta := max (-ess.PmaxCh / 20) (-pocMax / 20)
    ((ess.AdjustDischarge delta).1, delta)
  else if pocPercentage > 7/10 ∧ ePercentage > 7/10 ∧ ess.P < ess.PmaxDisch then
    let delta := min (ess.PmaxDisch / 20) (pocMax / 20)
    ((ess.AdjustDischarge delta).1, delta)
  else
    (ess, 0)

/-- Go `ESS.DecreaseDischarge`, first variant of the ESS file: its middle
branch writes `p - discharge` (the only behavioural difference from the
second variant above). -/
def ESSv1.DecreaseDischarge (ess : ESS) (discharge : ℚ) : ESS × ℚ :=
  if ess.P + discharge < 0 ∧ ess.E ≥ ess.Capacity then
    (ess.SetSetpoint 0, -ess.P)
  else if ess.P + discharge > ess.PmaxCh then
    (ess.SetSetpoint (ess.P - discharge), 0)
  else
    (ess.SetSetpoint ess.PmaxCh, discharge - (ess.PmaxCh - ess.P))

/-- Go `ESS.IncreaseDischarge`, first variant (same logic as the second). -/
def ESSv1.IncreaseDischarge (ess : ESS) (discharge : ℚ) : ESS × ℚ :=
  if ess.P + discharge > 0 ∧ ess.E ≤ 0 then
    (ess.SetSetpoint 0, -ess.P)
  else if ess.P + discharge < ess.PmaxDisch then
    (ess.SetSetpoint (ess.P + discharge), 0)
  else
    (ess.SetSetpoint ess.PmaxDisch, discharge - (ess.PmaxDisch - ess.P))

/-- Go `ESS.AdjustDischarge`, first variant. -/
def ESSv1.AdjustDischarge (ess : ESS) (discharge : ℚ) : ESS × ℚ :=
  if discharge < 0 then ESSv1.DecreaseDischarge ess discharge
  else ESSv1.IncreaseDischarge ess discharge

/-- Modelled from the spec: `PV.BalanceEnergy` is invoked by `EMS.Serve` but
its definition is not among the source files; section 4.3 of the design
describes it: compute `pocPercentage = poc / pocMax` and
`available = Pprod - P`; if `available < 0` immediately reduce PV output by
that amount; otherwise, with spare production and utilization below 80%,
nudge PV output upward by `min available (pocMax / 20)`; return the applied
delta. -/
def PV.BalanceEnergy (pv : PV) (poc pocMax : ℚ) : PV × ℚ :=
  let pocPercentage := poc / pocMax
  let available := pv.Pprod - pv.P
  if available < 0 then
    ((pv.AdjustDischarge available).1, available)
  else if available > 0 ∧ pocPercentage < 8/10 then
    let delta := min available (pocMax / 20)
    ((pv.AdjustDischarge delta).1, delta)
  else
    (pv, 0)

/-- Errors constructed by the EMS-level operations (`errors.go`).
`ErrESSEmpty` is declared in the source but never raised by the embedded
operations. -/
inductive GoError where
  | gridMissingCoverage (required : ℚ)
deriving DecidableEq, Repr

/-- Magnitude carried by an optional EMS-level error (`0` when no error). -/
def uncoveredOf : Option GoError → ℚ
  | some (GoError.gridMissingCoverage r) => r
  | none => 0

/-- EMS controller state: one ESS, one PV, one POC meter and the configured
site bound `PMaxSite`. -/
structure EMS where
  ESS : ESS
  PV : PV
  POC : POC
  PMaxSite : ℚ
deriving DecidableEq, Repr

/-- Go `EMS.IncreaseSiteDischarge`: waterfall PV first, then ESS; raises
`ErrGridMissingCoverage` with the final remainder when it is nonzero.  (In
the source the ESS adjustment's `error` return is checked but is always
`nil`.) -/
def EMS.IncreaseSiteDischarge (ems : EMS) (discharge : ℚ) : EMS × Option GoError :=
  let pvres := ems.PV.AdjustDischarge discharge
  let ems1 := { ems with PV := pvres.1 }
  if pvres.2 = 0 then (ems1, none)
  else
    let essres := ems1.ESS.AdjustDischarge pvres.2
    let ems2 := { ems1 with ESS := essres.1 }
    if essres.2 ≠ 0 then (ems2, some (GoError.gridMissingCoverage essres.2))
    else (ems2, none)

/-- Go `EMS.DecreaseSiteDischarge`: waterfall ESS first, then PV. -/
def EMS.DecreaseSiteDischarge (ems : EMS) (discharge : ℚ) : EMS × Option GoError :=
  let essres := ems.ESS.AdjustDischarge discharge
  let ems1 := { ems with ESS := essres.1 }
  if essres.2 = 0 then (ems1, none)
  else
    let pvres := ems1.PV.AdjustDischarge essres.2
    let ems2 := { ems1 with PV := pvres.1 }
    if pvres.2 ≠ 0 then (ems2, some (GoError.gridMissingCoverage pvres.2))
    else (ems2, none)

/-- Go `EMS.BalanceSiteDischarge`: shift discharge from ESS to PV without
changing the commanded total.  The `poc` argument is unused in the source;
the source's `error` return is always `nil` and is omitted. -/
def EMS.BalanceSiteDischarge (ems : EMS) (poc : ℚ) : EMS :=
  let available := ems.PV.AvailableProd
  let p := ems.ESS.P
  let pMaxCh := ems.ESS.PmaxCh
  if available > 0 ∧ p > 0 then
    if available > p then
      { ems with PV := (ems.PV.AdjustDischarge p).1,
                 ESS := (ems.ESS.AdjustDischarge (-p)).1 }
    else
      { ems with PV := (ems.PV.AdjustDischarge available).1,
                 ESS := (ems.ESS.AdjustDischarge (-available)).1 }
  else if available > 0 ∧ p < 0 then
    let maxChAvailable := p - pMaxCh
    if available > maxChAvailable then
      { ems with PV := (ems.PV.AdjustDischarge maxChAvailable).1,
                 ESS := (ems.ESS.AdjustDischarge (-maxChAvailable)).1 }
    else
      { ems with PV := (ems.PV.AdjustDischarge available).1,
                 ESS := (ems.ESS.AdjustDischarge (-available)).1 }
  else
    ems

/-- Safety margin hard-coded at the top of `EMS.Serve`. -/
def serveMargin : ℚ := 1/10

/-- Effective bound computed at the start of `EMS.Serve`:
`PMaxSite - PMaxSite * margin`. -/
def EMS.effectivePMaxSite (pMaxSite : ℚ) : ℚ := pMaxSite - pMaxSite * serveMargin

/-- Lower trigger computed at the start of `EMS.Serve`:
`0 + effective * margin` (the source computes it from the already narrowed
`PMaxSite` field). -/
def EMS.pMinSiteOf (pMaxSite : ℚ) : ℚ := 0 + EMS.effectivePMaxSite pMaxSite * serveMargin

/-- Branch taken by one tick of the `EMS.Serve` decision loop, with the
magnitude handed to the corrective call. -/
inductive TickAction where
  | increaseSite (amount : ℚ)
  | decreaseSite (amount : ℚ)
  | balance
deriving DecidableEq, Repr

/-- Classification performed by the decision loop of `EMS.Serve`: the first
branch fires when `poc > PMaxSite` (the margin-narrowed field), the second
when `poc < pMinSite`, otherwise the balancing path runs. -/
def EMS.classifyTick (pMaxSiteEffective pMinSite poc : ℚ) : TickAction :=
  if poc > pMaxSiteEffective then TickAction.increaseSite (poc - pMaxSiteEffective)
  else if poc < pMinSite then TickAction.decreaseSite (poc - pMinSite)
  else TickAction.balance

/-- Domain logic of one iteration of the `EMS.Serve` loop (the debug-only
`Next` simulation and the log statements are outside the embedded core).
`ems.PMaxSite` is assumed already narrowed by the startup margin, as in the
source where the field is overwritten before the loop.  Returns the new
state and the list of per-cycle errors that the source logs and drops. -/
def EMS.serveTick (ems : EMS) (pMinSite : ℚ) : EMS × List GoError :=
  let poc := ems.POC.GetMeterMeasure
  if poc > ems.PMaxSite then
    match ems.IncreaseSiteDischarge (poc - ems.PMaxSite) with
    | (ems1, some e) => (ems1, [e])
    | (ems1, none) => (ems1, [])
  else if poc < pMinSite then
    match ems.DecreaseSiteDischarge (poc - pMinSite) with
    | (ems1, some e) => (ems1, [e])
    | (ems1, none) => (ems1, [])
  else
    let ems1 := ems.BalanceSiteDischarge poc
    let pvres := ems1.PV.BalanceEnergy poc ems1.PMaxSite
    let ems2 := { ems1 with PV := pvres.1 }
    let poc1 := poc + pvres.2
    let essres := ems2.ESS.BalanceEnergy poc1 ems2.PMaxSite
    ({ ems2 with ESS := essres.1 }, [])

/-- Outcome of one turn of the `EMS.Serve` loop: either the loop returns
(cancellation observed at the top of the iteration) or it proceeds to the
next tick with the per-cycle errors it logged. -/
inductive StepResult where
  | stopped
  | next (ems : EMS) (loggedErrors : List GoError)
deriving DecidableEq, Repr

/-- One turn of the `EMS.Serve` loop: the cancellation check at the top of
the iteration, then the tick body.  Every per-cycle error ends up in the
`next` constructor's logged list; no error path returns from the loop. -/
def EMS.serveStep (ctxDone : Bool) (ems : EMS) (pMinSite : ℚ) : StepResult :=
  if ctxDone then StepResult.stopped
  else StepResult.next (ems.serveTick pMinSite).1 (ems.serveTick pMinSite).2

/-- ESS state used to exhibit the first variant's decrease-path fault:
discharging at the limit `P = PmaxDisch = 40`, half full. -/
def essC3 : ESS := { P := 40, PmaxCh := -40, PmaxDisch := 40, E := 50, Capacity := 100, SetPointP := 40 }

/-- ESS state for the energy-balance evaluation: idle battery, empty,
with charge capability 400 and discharge capability 40. -/
def essC8 : ESS := { P := 0, PmaxCh := -400, PmaxDisch := 40, E := 0, Capacity := 100, SetPointP := 0 }

/-- PV state with output 10 used for the decrease-path remainder facts. -/
def pvC7 : PV := { P := 10, Pprod := 30, Peak := 50, SetPointP := 10 }

/-- ESS state with prior discharge 10 and empty battery. -/
def essC6 : ESS := { P := 10, PmaxCh := -40, PmaxDisch := 40, E := 0, Capacity := 100, SetPointP := 10 }

/-- Claim C1 (counterexample): with `PMaxSite = -1000` the startup margin
yields the effective bound `-900`, yet a POC reading of `-950` fails the
loop's over-threshold test `poc > -900`, so the tick does not invoke
increase-site-discharge with magnitude 50. -/
theorem serve_classify_neg950_not_increase :
    EMS.classifyTick (EMS.effectivePMaxSite (-1000)) (EMS.pMinSiteOf (-1000)) (-950)
      ≠ TickAction.increaseSite 50 := by
  norm_num [EMS.classifyTick, EMS.effectivePMaxSite, EMS.pMinSiteOf, serveMargin]
  intro h
  injection h

/-- Claim C1 (amended): with `PMaxSite = -1000` and margin `0.10` the
effective bound is `-900` and `pMinSite` is `-90`; a POC reading of `-950`
is classified under-threshold (`poc < pMinSite`) and invokes
decrease-site-discharge with magnitude `-860`. -/
theorem serve_margin_and_classify_neg950 :
    EMS.effectivePMaxSite (-1000) = -900 ∧ EMS.pMinSiteOf (-1000) = -90 ∧
      EMS.classifyTick (EMS.effectivePMaxSite (-1000)) (EMS.pMinSiteOf (-1000)) (-950)
        = TickAction.decreaseSite (-860) := by
  norm_num [EMS.classifyTick, EMS.effectivePMaxSite, EMS.pMinSiteOf, serveMargin]

/-- Claim C3: the first ESS variant's decrease path writes `p - discharge`,
so from the in-range state `essC3` (at the discharge limit 40) a decrease
request of `-10` commands a setpoint of 50, outside `[PmaxCh, PmaxDisch]`,
contradicting the function's own documentation (the second variant writes
`p + discharge` and stays in range). -/
theorem essv1_adjust_exceeds_pmaxdisch :
    (ESSv1.AdjustDischarge essC3 (-10)).1.SetPointP = 50 ∧
      ¬ (ESSv1.AdjustDischarge essC3 (-10)).1.SetPointP ≤ essC3.PmaxDisch := by
  norm_num [ESSv1.AdjustDischarge, ESSv1.DecreaseDischarge, ESS.SetSetpoint, essC3]

/-- Claim C4: for every PV state with `0 ≤ P ≤ Pprod ≤ Peak` and every
delta, `AdjustDischarge` commands a setpoint inside `[0, Pprod]`. -/
theorem pv_adjustDischarge_within_bounds (pv : PV) (d : ℚ)
    (h0 : 0 ≤ pv.P) (h1 : pv.P ≤ pv.Pprod) (h2 : pv.Pprod ≤ pv.Peak) :
    0 ≤ (pv.AdjustDischarge d).1.SetPointP ∧
      (pv.AdjustDischarge d).1.SetPointP ≤ pv.Pprod := by
  simp only [PV.AdjustDischarge, PV.IncreaseDischarge, PV.DecreaseDischarge, PV.SetSetpoint]
  split_ifs <;> constructor <;> simp <;> linarith

/-- Claim C4 witness: the bounds hold at the concrete state
`P = 10, Pprod = 30, Peak = 50` with delta `-25`. -/
theorem pv_adjustDischarge_within_bounds_witness :
    0 ≤ (PV.AdjustDischarge ⟨10, 30, 50, 10⟩ (-25)).1.SetPointP ∧
      (PV.AdjustDischarge ⟨10, 30, 50, 10⟩ (-25)).1.SetPointP ≤ (30 : ℚ) :=
  pv_adjustDischarge_within_bounds ⟨10, 30, 50, 10⟩ (-25)
    (by norm_num) (by norm_num) (by norm_num)

/-- Claim C6: for every ESS state with `E = 0`, prior discharge `P ≥ 0` and
a positive request, the increase path zeroes the setpoint and returns
`-P` (the full prior discharge, negated as the distinctive empty-battery
sentinel), never the partial clamp against `PmaxDisch`. -/
theorem ess_increaseDischarge_empty_sentinel (ess : ESS) (d : ℚ)
    (hE : ess.E = 0) (hP : 0 ≤ ess.P) (hd : 0 < d) :
    (ess.AdjustDischarge d).1.SetPointP = 0 ∧ (ess.AdjustDischarge d).2 = -ess.P := by
  simp only [ESS.AdjustDischarge, ESS.IncreaseDischarge, ESS.SetSetpoint]
  rw [if_neg (by linarith), if_pos ⟨by linarith, by rw [hE]⟩]
  exact ⟨rfl, rfl⟩

/-- Claim C6 witness: with prior discharge 10 and empty battery, a request
of 5 zeroes the setpoint and reports `-10`. -/
theorem ess_increaseDischarge_empty_sentinel_witness :
    (essC6.AdjustDischarge 5).1.SetPointP = 0 ∧ (essC6.AdjustDischarge 5).2 = -essC6.P :=
  ess_increaseDischarge_empty_sentinel essC6 5 rfl (by norm_num [essC6]) (by norm_num)

/-- Claim C7 (counterexample): from `P = 10` a decrease request of `-15` is
capped at 0 but returns `-10` (the negated prior output), not the claimed
`delta - (0 - P) = -5`. -/
theorem pv_decrease_capped_remainder_cex :
    (pvC7.AdjustDischarge (-15)).2 = -10 ∧
      (pvC7.AdjustDischarge (-15)).2 ≠ (-15) - (0 - pvC7.P) := by
  norm_num [PV.AdjustDischarge, PV.DecreaseDischarge, PV.SetSetpoint, pvC7]

/-- Claim C7 (amended): for every PV state and delta `< 0`, the decrease
path lowers the setpoint to `P + delta` with remainder 0 when `P + delta
> 0`; caps at 0 returning the sentinel `-P` when `P + delta < 0`; and at
the exact boundary `P + delta = 0` sets 0 and returns `delta - P`. -/
theorem pv_decreaseDischarge_cases (pv : PV) (d : ℚ) (hd : d < 0) :
    (0 < pv.P + d →
        (pv.AdjustDischarge d).1.SetPointP = pv.P + d ∧ (pv.AdjustDischarge d).2 = 0) ∧
      (pv.P + d < 0 →
        (pv.AdjustDischarge d).1.SetPointP = 0 ∧ (pv.AdjustDischarge d).2 = -pv.P) ∧
      (pv.P + d = 0 →
        (pv.AdjustDischarge d).1.SetPointP = 0 ∧ (pv.AdjustDischarge d).2 = d - pv.P) := by
  simp only [PV.AdjustDischarge, PV.DecreaseDischarge, PV.SetSetpoint, if_pos hd]
  refine ⟨fun h => ?_, fun h => ?_, fun h => ?_⟩
  · rw [if_neg (by linarith), if_pos h]
    exact ⟨rfl, rfl⟩
  · rw [if_pos h]
    exact ⟨rfl, rfl⟩
  · rw [if_neg (by linarith), if_neg (by linarith)]
    exact ⟨rfl, rfl⟩

/-- Claim C7 witness: the capped case of the trichotomy at `P = 10`,
delta `-15`. -/
theorem pv_decreaseDischarge_cases_witness :
    (pvC7.AdjustDischarge (-15)).1.SetPointP = 0 ∧ (pvC7.AdjustDischarge (-15)).2 = -pvC7.P :=
  (pv_decreaseDischarge_cases pvC7 (-15) (by norm_num)).2.1 (by norm_num [pvC7])

/-- Per-asset contract of the PV increase path: the commanded change equals
the request minus the reported remainder. -/
theorem pv_increase_delta (pv : PV) (d : ℚ) (hd : 0 ≤ d) :
    (pv.AdjustDischarge d).1.SetPointP - pv.P = d - (pv.AdjustDischarge d).2 := by
  simp only [PV.AdjustDischarge, PV.IncreaseDischarge, PV.SetSetpoint, if_neg (not_lt.mpr hd)]
  split_ifs <;> simp

/-- The PV increase path never reports a negative remainder. -/
theorem pv_increase_rem_nonneg (pv : PV) (d : ℚ) (hd : 0 ≤ d) :
    0 ≤ (pv.AdjustDischarge d).2 := by
  simp only [PV.AdjustDischarge, PV.IncreaseDischarge, PV.SetSetpoint, if_neg (not_lt.mpr hd)]
  split_ifs with h
  · simp
  · show 0 ≤ d - (pv.Pprod - pv.P)
    linarith [not_lt.mp h]

/-- Per-asset contract of the ESS increase path away from the empty-battery
sentinel branch: commanded change equals request minus reported remainder. -/
theorem ess_increase_delta (ess : ESS) (d : ℚ) (hd : 0 ≤ d)
    (hne : ¬ (ess.E ≤ 0 ∧ 0 < ess.P + d)) :
    (ess.AdjustDischarge d).1.SetPointP - ess.P = d - (ess.AdjustDischarge d).2 := by
  simp only [ESS.AdjustDischarge, ESS.IncreaseDischarge, ESS.SetSetpoint,
    if_neg (not_lt.mpr hd)]
  rw [if_neg (by intro h; exact hne ⟨h.2, h.1⟩)]
  split_ifs <;> simp

/-- EMS state used for the waterfall counterexample: PV already at its
production limit and a discharging but empty battery. -/
def emsC2cex : EMS :=
  { ESS := { P := 10, PmaxCh := -40, PmaxDisch := 40, E := 0, Capacity := 100, SetPointP := 10 },
    PV := { P := 30, Pprod := 30, Peak := 50, SetPointP := 30 },
    POC := { P := -950 }, PMaxSite := -900 }

/-- EMS state realizing the spec's waterfall scenario: idle PV with
production 30, idle battery with discharge limit 40 and energy 100. -/
def emsC2 : EMS :=
  { ESS := { P := 0, PmaxCh := -40, PmaxDisch := 40, E := 100, Capacity := 100, SetPointP := 0 },
    PV := { P := 0, Pprod := 30, Peak := 50, SetPointP := 0 },
    POC := { P := -950 }, PMaxSite := -900 }

/-- Claim C2 (counterexample): from `emsC2cex`, increase-site-discharge 50
leaves PV unchanged (remainder 50) and hits the battery-empty sentinel,
which zeroes the ESS setpoint and carries `-10`; the applied changes sum to
`-10`, not `50 - (-10) = 60`, so the conservation equation of the claim
fails. -/
theorem increaseSiteDischarge_conservation_cex :
    ((emsC2cex.IncreaseSiteDischarge 50).1.PV.SetPointP - emsC2cex.PV.P)
        + ((emsC2cex.IncreaseSiteDischarge 50).1.ESS.SetPointP - emsC2cex.ESS.P)
      ≠ 50 - uncoveredOf (emsC2cex.IncreaseSiteDischarge 50).2 := by
  norm_num [EMS.IncreaseSiteDischarge, PV.AdjustDischarge, PV.IncreaseDischarge,
    ESS.AdjustDischarge, ESS.IncreaseDischarge, PV.SetSetpoint, ESS.SetSetpoint,
    uncoveredOf, emsC2cex]

/-- Claim C2 (amended): for every positive amount, increase-site-discharge
asks PV first and ESS second; provided the ESS call does not take the
battery-empty sentinel branch (`E ≤ 0` with prior discharge plus the PV
remainder positive) and the ESS setpoint starts at its measured output, the
commanded changes on PV and ESS sum to the amount minus the returned
uncovered remainder, and any grid-coverage-shortfall error carries a nonzero
remainder. -/
theorem increaseSiteDischarge_waterfall (ems : EMS) (amount : ℚ)
    (hamt : 0 < amount)
    (hsp : ems.ESS.SetPointP = ems.ESS.P)
    (hne : ¬ (ems.ESS.E ≤ 0 ∧ 0 < ems.ESS.P + (ems.PV.AdjustDischarge amount).2)) :
    ((ems.IncreaseSiteDischarge amount).1.PV.SetPointP - ems.PV.P)
        + ((ems.IncreaseSiteDischarge amount).1.ESS.SetPointP - ems.ESS.P)
      = amount - uncoveredOf (ems.IncreaseSiteDischarge amount).2
    ∧ ∀ r, (ems.IncreaseSiteDischarge amount).2 = some (GoError.gridMissingCoverage r) →
        r ≠ 0 := by
  have hd0 : (0 : ℚ) ≤ amount := le_of_lt hamt
  have hpv := pv_increase_delta ems.PV amount hd0
  have hrem := pv_increase_rem_nonneg ems.PV amount hd0
  simp only [EMS.IncreaseSiteDischarge]
  by_cases h1 : (ems.PV.AdjustDischarge amount).2 = 0
  · rw [if_pos h1]
    refine ⟨?_, by intro r hr; exact absurd hr (by simp)⟩
    simp only [uncoveredOf]
    rw [h1] at hpv
    simp only [hsp]
    linarith
  · rw [if_neg h1]
    have hess := ess_increase_delta ems.ESS (ems.PV.AdjustDischarge amount).2 hrem hne
    by_cases h2 : (ems.ESS.AdjustDischarge (ems.PV.AdjustDischarge amount).2).2 = 0
    · rw [if_neg (by simpa using h2)]
      refine ⟨?_, by intro r hr; exact absurd hr (by simp)⟩
      simp only [uncoveredOf]
      rw [h2] at hess
      linarith
    · rw [if_pos (by simpa using h2)]
      refine ⟨?_, ?_⟩
      · simp only [uncoveredOf]
        linarith
      · intro r hr
        simp only [Option.some.injEq, GoError.gridMissingCoverage.injEq] at hr
        rw [← hr]
        exact h2

/-- Claim C2 witness: the spec scenario from `emsC2`: amount 50, PV absorbs
30 (setpoint 30), the remainder 20 is fully covered by the battery
(setpoint 20), no error, and the conservation equation holds. -/
theorem increaseSiteDischarge_waterfall_witness :
    ((((emsC2.IncreaseSiteDischarge 50).1.PV.SetPointP - emsC2.PV.P)
        + ((emsC2.IncreaseSiteDischarge 50).1.ESS.SetPointP - emsC2.ESS.P)
      = 50 - uncoveredOf (emsC2.IncreaseSiteDischarge 50).2)
      ∧ ∀ r, (emsC2.IncreaseSiteDischarge 50).2 = some (GoError.gridMissingCoverage r) →
          r ≠ 0)
    ∧ (emsC2.IncreaseSiteDischarge 50).1.PV.SetPointP = 30
    ∧ (emsC2.IncreaseSiteDischarge 50).1.ESS.SetPointP = 20
    ∧ (emsC2.IncreaseSiteDischarge 50).2 = none := by
  refine ⟨increaseSiteDischarge_waterfall emsC2 50 (by norm_num) rfl (by norm_num [emsC2]), ?_⟩
  norm_num [EMS.IncreaseSiteDischarge, PV.AdjustDischarge, PV.IncreaseDischarge,
    ESS.AdjustDischarge, ESS.IncreaseDischarge, PV.SetSetpoint, ESS.SetSetpoint, emsC2]

/-- EMS state where the battery is charging while already full: the
balance-site-discharge redistribution is not conservative here. -/
def emsC5 : EMS :=
  { ESS := { P := -10, PmaxCh := -40, PmaxDisch := 40, E := 100, Capacity := 100, SetPointP := -10 },
    PV := { P := 10, Pprod := 30, Peak := 50, SetPointP := 10 },
    POC := { P := 0 }, PMaxSite := -900 }

/-- Claim C5 (counterexample): from `emsC5` (PV headroom 20, battery
charging at 10 while full), balance-site-discharge raises PV by 20 but the
ESS decrease path takes the battery-full branch and zeroes the setpoint
(a change of +10), so the commanded changes sum to 30, not 0. -/
theorem balanceSiteDischarge_sum_cex :
    ((emsC5.BalanceSiteDischarge 0).PV.SetPointP - emsC5.PV.P)
        + ((emsC5.BalanceSiteDischarge 0).ESS.SetPointP - emsC5.ESS.P) = 30 ∧
      ((emsC5.BalanceSiteDischarge 0).PV.SetPointP - emsC5.PV.P)
        + ((emsC5.BalanceSiteDischarge 0).ESS.SetPointP - emsC5.ESS.P) ≠ 0 := by
  norm_num [EMS.BalanceSiteDischarge, PV.AvailableProd, PV.AdjustDischarge,
    PV.IncreaseDischarge, PV.DecreaseDischarge, ESS.AdjustDischarge,
    ESS.IncreaseDischarge, ESS.DecreaseDischarge, PV.SetSetpoint, ESS.SetSetpoint, emsC5]

/-- When the requested increase fits under the production estimate, the PV
setpoint lands exactly on `P + d`. -/
theorem pv_increase_exact (pv : PV) (d : ℚ) (hd : 0 ≤ d)
    (hle : pv.P + d ≤ pv.Pprod) :
    (pv.AdjustDischarge d).1.SetPointP = pv.P + d := by
  simp only [PV.AdjustDischarge, PV.IncreaseDischarge, PV.SetSetpoint,
    if_neg (not_lt.mpr hd)]
  split_ifs with h
  · rfl
  · show pv.Pprod = pv.P + d
    linarith [not_lt.mp h]

/-- When a nonpositive request stays above the charge limit and the
battery-full and battery-empty branches are excluded, the ESS setpoint
lands exactly on `P + d`. -/
theorem ess_decrease_exact (ess : ESS) (d : ℚ) (hd : d ≤ 0)
    (hfull : ¬ (ess.P + d < 0 ∧ ess.Capacity ≤ ess.E))
    (hge : ess.PmaxCh ≤ ess.P + d)
    (h0 : d = 0 → ¬ (0 < ess.P ∧ ess.E ≤ 0) ∧ ess.P ≤ ess.PmaxDisch) :
    (ess.AdjustDischarge d).1.SetPointP = ess.P + d := by
  by_cases hneg : d < 0
  · simp only [ESS.AdjustDischarge, ESS.DecreaseDischarge, ESS.SetSetpoint, if_pos hneg]
    rw [if_neg (fun h => hfull ⟨h.1, h.2⟩)]
    split_ifs with h
    · rfl
    · show ess.PmaxCh = ess.P + d
      linarith [not_lt.mp h]
  · have hz : d = 0 := le_antisymm hd (not_lt.mp hneg)
    obtain ⟨hem, hdis⟩ := h0 hz
    simp only [ESS.AdjustDischarge, ESS.IncreaseDischarge, ESS.SetSetpoint, if_neg hneg]
    rw [if_neg (by rw [hz]; simpa using hem)]
    split_ifs with h
    · rfl
    · show ess.PmaxDisch = ess.P + d
      rw [hz]
      linarith [not_lt.mp h]

/-- Claim C5 (amended): under the data-model conventions
(`PmaxCh ≤ 0 ≤ PmaxDisch`, `PmaxCh ≤ P`), with asset setpoints starting at
their measured outputs and the battery not charging-while-full,
balance-site-discharge leaves the measured outputs untouched and the
commanded power changes on PV and ESS cancel exactly. -/
theorem balanceSiteDischarge_preserves_sum (ems : EMS) (poc : ℚ)
    (hch : ems.ESS.PmaxCh ≤ 0) (hdis : 0 ≤ ems.ESS.PmaxDisch)
    (hpch : ems.ESS.PmaxCh ≤ ems.ESS.P)
    (hpv : ems.PV.SetPointP = ems.PV.P) (hess : ems.ESS.SetPointP = ems.ESS.P)
    (hnf : ¬ (ems.ESS.P < 0 ∧ ems.ESS.Capacity ≤ ems.ESS.E)) :
    ((ems.BalanceSiteDischarge poc).PV.SetPointP - ems.PV.P)
        + ((ems.BalanceSiteDischarge poc).ESS.SetPointP - ems.ESS.P) = 0
      ∧ (ems.BalanceSiteDischarge poc).PV.P = ems.PV.P
      ∧ (ems.BalanceSiteDischarge poc).ESS.P = ems.ESS.P := by
  have hpvP : ∀ (q : PV) (x : ℚ), (q.AdjustDischarge x).1.P = q.P := by
    intro q x
    simp only [PV.AdjustDischarge, PV.IncreaseDischarge, PV.DecreaseDischarge, PV.SetSetpoint]
    split_ifs <;> rfl
  have hessP : ∀ (q : ESS) (x : ℚ), (q.AdjustDischarge x).1.P = q.P := by
    intro q x
    simp only [ESS.AdjustDischarge, ESS.IncreaseDischarge, ESS.DecreaseDischarge,
      ESS.SetSetpoint]
    split_ifs <;> rfl
  simp only [EMS.BalanceSiteDischarge, PV.AvailableProd]
  by_cases h1 : ems.PV.Pprod - ems.PV.P > 0 ∧ ems.ESS.P > 0
  · rw [if_pos h1]
    by_cases h2 : ems.PV.Pprod - ems.PV.P > ems.ESS.P
    · rw [if_pos h2]
      refine ⟨?_, hpvP _ _, hessP _ _⟩
      show ((ems.PV.AdjustDischarge ems.ESS.P).1.SetPointP - ems.PV.P)
          + ((ems.ESS.AdjustDischarge (-ems.ESS.P)).1.SetPointP - ems.ESS.P) = 0
      rw [pv_increase_exact ems.PV ems.ESS.P (le_of_lt h1.2) (by linarith [h2]),
        ess_decrease_exact ems.ESS (-ems.ESS.P) (by linarith [h1.2])
          (by intro hcon; linarith [hcon.1]) (by linarith [hch])
          (fun hz => absurd hz (ne_of_lt (by linarith [h1.2])))]
      ring
    · rw [if_neg h2]
      refine ⟨?_, hpvP _ _, hessP _ _⟩
      show ((ems.PV.AdjustDischarge (ems.PV.Pprod - ems.PV.P)).1.SetPointP - ems.PV.P)
          + ((ems.ESS.AdjustDischarge (-(ems.PV.Pprod - ems.PV.P))).1.SetPointP
              - ems.ESS.P) = 0
      rw [pv_increase_exact ems.PV (ems.PV.Pprod - ems.PV.P) (le_of_lt h1.1) (by linarith),
        ess_decrease_exact ems.ESS (-(ems.PV.Pprod - ems.PV.P)) (by linarith [h1.1])
          (by intro hcon; linarith [not_lt.mp h2, hcon.1])
          (by linarith [not_lt.mp h2, hch])
          (fun hz => absurd hz (ne_of_lt (by linarith [h1.1])))]
      ring
  · rw [if_neg h1]
    by_cases h3 : ems.PV.Pprod - ems.PV.P > 0 ∧ ems.ESS.P < 0
    · rw [if_pos h3]
      by_cases h4 : ems.PV.Pprod - ems.PV.P > ems.ESS.P - ems.ESS.PmaxCh
      · rw [if_pos h4]
        refine ⟨?_, hpvP _ _, hessP _ _⟩
        show ((ems.PV.AdjustDischarge (ems.ESS.P - ems.ESS.PmaxCh)).1.SetPointP - ems.PV.P)
            + ((ems.ESS.AdjustDischarge (-(ems.ESS.P - ems.ESS.PmaxCh))).1.SetPointP
                - ems.ESS.P) = 0
        rw [pv_increase_exact ems.PV (ems.ESS.P - ems.ESS.PmaxCh) (by linarith [hpch])
            (by linarith [h4]),
          ess_decrease_exact ems.ESS (-(ems.ESS.P - ems.ESS.PmaxCh)) (by linarith [hpch])
            (by intro hcon; exact hnf ⟨h3.2, hcon.2⟩) (by linarith)
            (by intro hz
                exact ⟨fun hcon => absurd hcon.1 (by linarith [h3.2]),
                  by linarith [h3.2, hdis]⟩)]
        ring
      · rw [if_neg h4]
        refine ⟨?_, hpvP _ _, hessP _ _⟩
        show ((ems.PV.AdjustDischarge (ems.PV.Pprod - ems.PV.P)).1.SetPointP - ems.PV.P)
            + ((ems.ESS.AdjustDischarge (-(ems.PV.Pprod - ems.PV.P))).1.SetPointP
                - ems.ESS.P) = 0
        rw [pv_increase_exact ems.PV (ems.PV.Pprod - ems.PV.P) (le_of_lt h3.1) (by linarith),
          ess_decrease_exact ems.ESS (-(ems.PV.Pprod - ems.PV.P)) (by linarith [h3.1])
            (by intro hcon; exact hnf ⟨h3.2, hcon.2⟩) (by linarith [not_lt.mp h4])
            (fun hz => absurd hz (ne_of_lt (by linarith [h3.1])))]
        ring
    · rw [if_neg h3]
      exact ⟨by rw [hpv, hess]; ring, rfl, rfl⟩

/-- EMS state with PV headroom 20 and the battery discharging at 15, used
to exercise the redistribution on its main branch. -/
def emsC5w : EMS :=
  { ESS := { P := 15, PmaxCh := -40, PmaxDisch := 40, E := 50, Capacity := 100, SetPointP := 15 },
    PV := { P := 10, Pprod := 30, Peak := 50, SetPointP := 10 },
    POC := { P := 0 }, PMaxSite := -900 }

/-- Claim C5 witness: from `emsC5w` (PV headroom 20, battery discharging at
15 with room left), the redistribution is conservative. -/
theorem balanceSiteDischarge_preserves_sum_witness :
    (((emsC5w.BalanceSiteDischarge 0).PV.SetPointP - emsC5w.PV.P)
        + ((emsC5w.BalanceSiteDischarge 0).ESS.SetPointP - emsC5w.ESS.P) = 0)
      ∧ (emsC5w.BalanceSiteDischarge 0).PV.P = emsC5w.PV.P
      ∧ (emsC5w.BalanceSiteDischarge 0).ESS.P = emsC5w.ESS.P :=
  balanceSiteDischarge_preserves_sum emsC5w 0 (by norm_num [emsC5w])
    (by norm_num [emsC5w]) (by norm_num [emsC5w]) rfl rfl (by norm_num [emsC5w])

/-- Claim C9: one turn of the `Serve` loop returns (leaves the loop) exactly
when the context is cancelled; for every state, every per-cycle error from
the corrective or balancing calls is carried into the `next` outcome (the
source logs it) and the loop proceeds to the following tick. -/
theorem serve_stops_only_on_cancel :
    ∀ (ctxDone : Bool) (ems : EMS) (pMinSite : ℚ),
      EMS.serveStep ctxDone ems pMinSite = StepResult.stopped ↔ ctxDone = true := by
  intro ctxDone ems pMinSite
  cases ctxDone <;> simp [EMS.serveStep]

/-- Claim C8: from the empty idle battery `essC8` with `poc = 0` and
`pocMax = -900` (consumption at 0% of the allowed draw), the low-consumption
branch fires but computes `delta = max(-PmaxCh/20, -pocMax/20) = 45`: a
positive, discharge-direction step instead of the claimed charging nudge of
magnitude `min(|PmaxCh|/20, |pocMax|/20) = 20`, and the underlying
adjustment call zeroes out on the empty battery while 45 is still reported
to the caller as the applied POC shift. -/
theorem ess_balanceEnergy_low_poc_discharges :
    (essC8.BalanceEnergy 0 (-900)).2 = 45 ∧
      0 < (essC8.BalanceEnergy 0 (-900)).2 ∧
      (essC8.BalanceEnergy 0 (-900)).2 ≠ -(min (|essC8.PmaxCh| / 20) (|(-900 : ℚ)| / 20)) ∧
      (essC8.BalanceEnergy 0 (-900)).1.SetPointP = 0 := by
  norm_num [ESS.BalanceEnergy, ESS.AdjustDischarge, ESS.IncreaseDischarge,
    ESS.SetSetpoint, essC8, max_def, min_def, abs]

/-- Claim C10: for every PV and ESS state and every delta, the adjustment
operations write only `SetPointP`: measured output, limits and energy
fields are unchanged. -/
theorem adjustDischarge_frame (pv : PV) (ess : ESS) (d : ℚ) :
    ((pv.AdjustDischarge d).1.P = pv.P ∧ (pv.AdjustDischarge d).1.Pprod = pv.Pprod ∧
        (pv.AdjustDischarge d).1.Peak = pv.Peak) ∧
      ((ess.AdjustDischarge d).1.P = ess.P ∧ (ess.AdjustDischarge d).1.PmaxCh = ess.PmaxCh ∧
        (ess.AdjustDischarge d).1.PmaxDisch = ess.PmaxDisch ∧
        (ess.AdjustDischarge d).1.E = ess.E ∧
        (ess.AdjustDischarge d).1.Capacity = ess.Capacity) := by
  constructor
  · simp only [PV.AdjustDischarge, PV.IncreaseDischarge, PV.DecreaseDischarge, PV.SetSetpoint]
    split_ifs <;> simp
  · simp only [ESS.AdjustDischarge, ESS.IncreaseDischarge, ESS.DecreaseDischarge,
      ESS.SetSetpoint]
    split_ifs <;> simp

end EMSDev
